import Mathlib

/-!
Shallow embedding of `src/packages/core/src/core/localContentGenerator.ts`
(class `LocalContentGenerator`), the local-model content-generation adapter.

Modelling conventions:
* JavaScript strings are Lean `String`s; `String.prototype.trim` is `jsTrim`
  (the ECMAScript WhiteSpace/LineTerminator set), and the JS `length`
  property (UTF-16 code units) is `utf16Len`.
* `JSON.parse` is `parseJson`, a strict RFC 8259 parser returning `none` on
  any syntax error (JS throws `SyntaxError`; the only caller wraps the call
  in `try`/`catch` and treats failure as "skip").  JSON numbers are kept as
  exact decimals `mantissa * 10 ^ exponent`; no claim compares parsed
  numbers, only their truthiness, which agrees with the double semantics.
  A lone `\uXXXX` surrogate escape becomes U+FFFD (Lean `Char` cannot hold
  unpaired surrogates); no claim involves such strings.
* JS truthiness of the dynamic values the code branches on is modelled by
  `jsTruthy` / `jsOr*` helpers.
* Network effects are modelled by an explicit outcome datatype: the
  adapter's behaviour is a pure function of the configuration, the request,
  and the transport outcome (timeout abort, HTTP error status, other
  transport failure, or a payload).
-/

namespace LocalGen

/-- Characters removed by JavaScript `String.prototype.trim`
(ECMAScript WhiteSpace and LineTerminator code points). -/
def isJsTrimWs (c : Char) : Bool :=
  let n := c.toNat
  n = 0x20 || n = 0x09 || n = 0x0a || n = 0x0d || n = 0x0b || n = 0x0c ||
  n = 0xa0 || n = 0xfeff || n = 0x1680 || (0x2000 ≤ n && n ≤ 0x200a) ||
  n = 0x2028 || n = 0x2029 || n = 0x202f || n = 0x205f || n = 0x3000

/-- The `trim` operation on a character list: drop leading, then trailing, whitespace. -/
def jsTrimList (l : List Char) : List Char :=
  ((l.dropWhile isJsTrimWs).reverse.dropWhile isJsTrimWs).reverse

/-- JavaScript `s.trim()`. -/
def jsTrim (s : String) : String :=
  ⟨jsTrimList s.data⟩

/-- JavaScript `s.length`: number of UTF-16 code units. -/
def utf16Len (s : String) : Nat :=
  s.data.foldl (fun n c => n + (if c.toNat ≥ 0x10000 then 2 else 1)) 0

/-- Parsed JSON values.  Numbers are exact decimals `mantissa * 10 ^ exp`. -/
inductive JsonValue where
  | null
  | bool (b : Bool)
  | num (mantissa : Int) (exp10 : Int)
  | str (s : String)
  | arr (elems : List JsonValue)
  | obj (fields : List (String × JsonValue))
deriving Repr

/-- JSON insignificant whitespace (RFC 8259: space, tab, LF, CR). -/
def isJsonWs (c : Char) : Bool :=
  c = ' ' || c = '\t' || c = '\n' || c = '\r'

def isDigitCh (c : Char) : Bool :=
  '0' ≤ c && c ≤ '9'

def digitVal (c : Char) : Nat :=
  c.toNat - '0'.toNat

def digitsToNat (l : List Char) : Nat :=
  l.foldl (fun n c => n * 10 + digitVal c) 0

def hexDigitVal (c : Char) : Option Nat :=
  if '0' ≤ c ∧ c ≤ '9' then some (c.toNat - '0'.toNat)
  else if 'a' ≤ c ∧ c ≤ 'f' then some (c.toNat - 'a'.toNat + 10)
  else if 'A' ≤ c ∧ c ≤ 'F' then some (c.toNat - 'A'.toNat + 10)
  else none

def hex4 (a b c d : Char) : Option Nat :=
  match hexDigitVal a, hexDigitVal b, hexDigitVal c, hexDigitVal d with
  | some x, some y, some z, some w => some (4096 * x + 256 * y + 16 * z + w)
  | _, _, _, _ => none

/-- Unicode replacement character, standing in for unpaired surrogates. -/
def replCh : Char := Char.ofNat 0xfffd

/-- Parse the body of a JSON string literal (after the opening quote) up to
and including the closing quote; returns the decoded characters and the
remaining input.  Fuelled: every recursive step consumes at least one input
character, so `input length + 1` fuel always suffices. -/
def parseStringBody : Nat → List Char → Option (List Char × List Char)
  | 0, _ => none
  | _ + 1, [] => none
  | _ + 1, '"' :: rest => some ([], rest)
  | fuel + 1, '\\' :: esc :: rest =>
    if esc = '"' then (parseStringBody fuel rest).map (fun p => ('"' :: p.1, p.2))
    else if esc = '\\' then (parseStringBody fuel rest).map (fun p => ('\\' :: p.1, p.2))
    else if esc = '/' then (parseStringBody fuel rest).map (fun p => ('/' :: p.1, p.2))
    else if esc = 'b' then (parseStringBody fuel rest).map (fun p => (Char.ofNat 8 :: p.1, p.2))
    else if esc = 'f' then (parseStringBody fuel rest).map (fun p => (Char.ofNat 12 :: p.1, p.2))
    else if esc = 'n' then (parseStringBody fuel rest).map (fun p => ('\n' :: p.1, p.2))
    else if esc = 'r' then (parseStringBody fuel rest).map (fun p => ('\r' :: p.1, p.2))
    else if esc = 't' then (parseStringBody fuel rest).map (fun p => ('\t' :: p.1, p.2))
    else if esc = 'u' then
      match rest with
      | a :: b :: c :: d :: rest1 =>
        (match hex4 a b c d with
         | none => none
         | some code =>
           if 0xd800 ≤ code ∧ code ≤ 0xdbff then
             match rest1 with
             | '\\' :: 'u' :: e :: f :: g :: h :: rest2 =>
               (match hex4 e f g h with
                | none => none
                | some lo =>
                  if 0xdc00 ≤ lo ∧ lo ≤ 0xdfff then
                    (parseStringBody fuel rest2).map (fun p =>
                      (Char.ofNat (0x10000 + (code - 0xd800) * 0x400 + (lo - 0xdc00)) :: p.1,
                       p.2))
                  else
                    (parseStringBody fuel rest1).map (fun p => (replCh :: p.1, p.2)))
             | _ => (parseStringBody fuel rest1).map (fun p => (replCh :: p.1, p.2))
           else if 0xdc00 ≤ code ∧ code ≤ 0xdfff then
             (parseStringBody fuel rest1).map (fun p => (replCh :: p.1, p.2))
           else
             (parseStringBody fuel rest1).map (fun p => (Char.ofNat code :: p.1, p.2)))
      | _ => none
    else none
  | fuel + 1, c :: rest =>
    if c.toNat < 0x20 then none
    else (parseStringBody fuel rest).map (fun p => (c :: p.1, p.2))

/-- Parse a JSON number literal, returning `(mantissa, exp10)` and the rest. -/
def parseNumber (cs : List Char) : Option ((Int × Int) × List Char) :=
  let sign : Int := match cs with | '-' :: _ => -1 | _ => 1
  let cs1 := match cs with | '-' :: r => r | _ => cs
  let intDigits := cs1.takeWhile isDigitCh
  if intDigits.isEmpty then none
  else if 1 < intDigits.length ∧ intDigits.head? = some '0' then none
  else
    let rest1 := cs1.dropWhile isDigitCh
    let fracStep : Option (List Char × Nat × List Char) :=
      match rest1 with
      | '.' :: r =>
        let fr := r.takeWhile isDigitCh
        if fr.isEmpty then none
        else some (intDigits ++ fr, fr.length, r.dropWhile isDigitCh)
      | _ => some (intDigits, 0, rest1)
    match fracStep with
    | none => none
    | some (mantDigits, fracLen, rest2) =>
      let expStep : Option (Int × List Char) :=
        match rest2 with
        | c :: r =>
          if c = 'e' ∨ c = 'E' then
            let esign : Int := match r with | '-' :: _ => -1 | _ => 1
            let r1 := match r with | '-' :: rr => rr | '+' :: rr => rr | _ => r
            let ed := r1.takeWhile isDigitCh
            if ed.isEmpty then none
            else some (esign * (digitsToNat ed : Int), r1.dropWhile isDigitCh)
          else some (0, rest2)
        | [] => some (0, rest2)
      match expStep with
      | none => none
      | some (expVal, rest3) =>
        some ((sign * (digitsToNat mantDigits : Int), expVal - (fracLen : Int)), rest3)

mutual

/-- Parse one JSON value (fuelled recursive descent).  The fuel only bounds
recursion depth through containers; every recursive call consumes at least
one input character, so `input length + 1` fuel always suffices. -/
def parseValueF : Nat → List Char → Option (JsonValue × List Char)
  | 0, _ => none
  | fuel + 1, cs =>
    match cs.dropWhile isJsonWs with
    | 'n' :: 'u' :: 'l' :: 'l' :: rest => some (.null, rest)
    | 't' :: 'r' :: 'u' :: 'e' :: rest => some (.bool true, rest)
    | 'f' :: 'a' :: 'l' :: 's' :: 'e' :: rest => some (.bool false, rest)
    | '"' :: rest => (parseStringBody (rest.length + 1) rest).map (fun p => (.str ⟨p.1⟩, p.2))
    | '[' :: rest =>
      (match rest.dropWhile isJsonWs with
       | ']' :: r => some (.arr [], r)
       | other => parseArrayRest fuel other [])
    | '{' :: rest =>
      (match rest.dropWhile isJsonWs with
       | '}' :: r => some (.obj [], r)
       | other => parseObjRest fuel other [])
    | other => (parseNumber other).map (fun p => (.num p.1.1 p.1.2, p.2))

/-- Parse the elements of a non-empty JSON array (accumulator reversed). -/
def parseArrayRest : Nat → List Char → List JsonValue → Option (JsonValue × List Char)
  | 0, _, _ => none
  | fuel + 1, cs, acc =>
    match parseValueF fuel cs with
    | none => none
    | some (v, rest) =>
      match rest.dropWhile isJsonWs with
      | ',' :: r => parseArrayRest fuel r (v :: acc)
      | ']' :: r => some (.arr (v :: acc).reverse, r)
      | _ => none

/-- Parse the members of a non-empty JSON object (accumulator reversed). -/
def parseObjRest : Nat → List Char → List (String × JsonValue) → Option (JsonValue × List Char)
  | 0, _, _ => none
  | fuel + 1, cs, acc =>
    match cs.dropWhile isJsonWs with
    | '"' :: rest =>
      (match parseStringBody (rest.length + 1) rest with
       | none => none
       | some (key, rest2) =>
         match rest2.dropWhile isJsonWs with
         | ':' :: r =>
           (match parseValueF fuel r with
            | none => none
            | some (v, rest3) =>
              match rest3.dropWhile isJsonWs with
              | ',' :: r2 => parseObjRest fuel r2 ((⟨key⟩, v) :: acc)
              | '}' :: r2 => some (.obj ((⟨key⟩, v) :: acc).reverse, r2)
              | _ => none)
         | _ => none)
    | _ => none

end

/-- Model of `JSON.parse`: one JSON text with nothing but whitespace around it;
`none` models a thrown `SyntaxError`. -/
def parseJson (s : String) : Option JsonValue :=
  match parseValueF (s.length + 1) s.data with
  | some (v, rest) => if (rest.dropWhile isJsonWs).isEmpty then some v else none
  | none => none

/-! ## JavaScript truthiness helpers -/

/-- JS truthiness of a parsed JSON value (`undefined` is handled by the
`Option` wrappers below).  `NaN` cannot result from `JSON.parse`, so a
number is truthy iff its mantissa is nonzero. -/
def jsTruthy : JsonValue → Bool
  | .null => false
  | .bool b => b
  | .num m _ => m ≠ 0
  | .str s => s ≠ ""
  | .arr _ => true
  | .obj _ => true

/-- Truthiness of a possibly-absent (`undefined`) value. -/
def jsTruthyOpt : Option JsonValue → Bool
  | some v => jsTruthy v
  | none => false

/-- JS `x || d` on a possibly-absent JSON value. -/
def jsOrJson (x : Option JsonValue) (d : JsonValue) : JsonValue :=
  match x with
  | some v => if jsTruthy v then v else d
  | none => d

/-- JS `x || d` on a possibly-absent string (`""` is falsy). -/
def jsOrStr (x : Option String) (d : String) : String :=
  match x with
  | some s => if s = "" then d else s
  | none => d

/-- JS `x || d` on a possibly-absent non-negative number (`0` is falsy). -/
def jsOrNat (x : Option Nat) (d : Nat) : Nat :=
  match x with
  | some n => if n = 0 then d else n
  | none => d

/-- Property access `v.k` on a parsed JSON value: defined on objects
(duplicate keys: the last occurrence wins, as in `JSON.parse`), and
`undefined` (`none`) on anything else.  On `null` the real access throws,
but the throw is caught by the same per-line `catch` that swallows parse
errors, so yielding `none` produces identical observable behaviour. -/
def objGet (v : JsonValue) (k : String) : Option JsonValue :=
  match v with
  | .obj fields => ((fields.reverse).find? (fun p => p.1 = k)).map (fun p => p.2)
  | _ => none

/-! ## Data model of the adapter (from `localContentGenerator.ts`) -/

/-- The provider tag `LocalModelConfig.provider : 'ollama' | 'vllm' | 'custom'`. -/
inductive Provider where
  | ollama
  | vllm
  | custom
deriving Repr, DecidableEq

/-- The provider value as the string that appears in error messages. -/
def providerName : Provider → String
  | .ollama => "ollama"
  | .vllm => "vllm"
  | .custom => "custom"

/-- Configuration record `LocalModelConfig` (endpoint, model, provider). -/
structure LocalModelConfig where
  endpoint : String
  model : String
  provider : Provider
deriving Repr

/-- One request part.  The code only looks at `'text' in part && part.text`;
a part without a (truthy or falsy) `text` property is `other`. -/
inductive Part where
  | text (t : String)
  | other
deriving Repr, DecidableEq

/-- One `Content` entry: an object with a `parts` key (`none` models a
nullish `parts` value, skipped by `if (content.parts)`) and a role. -/
structure Content where
  parts : Option (List Part)
  role : Option String
deriving Repr

/-- One element of a `ContentListUnion` array: a `Content` object, a bare
`Part` object (no `parts` key), or a plain string. -/
inductive ContentItem where
  | contentItem (c : Content)
  | partItem (p : Part)
  | strItem (s : String)
deriving Repr

/-- The `request.contents` union: a single string, a single object, or an array. -/
inductive ContentsUnion where
  | one (x : ContentItem)
  | many (xs : List ContentItem)
deriving Repr

/-- Request record `GenerateContentParameters` — only `contents` is consumed by prompt
construction and token counting; the generation options (`temperature`,
`topP`, `topK`) only shape the outgoing HTTP body and are not modelled. -/
structure GenerateContentParameters where
  contents : ContentsUnion
deriving Repr

/-- Alias `CountTokensParameters`: same `contents` extraction. -/
abbrev CountTokensParameters := GenerateContentParameters

/-- Alias `EmbedContentParameters`: the request is never inspected. -/
abbrev EmbedContentParameters := GenerateContentParameters

/-- The `FinishReason` values the adapter produces. -/
inductive FinishReason where
  | STOP
  | MAX_TOKENS
deriving Repr, DecidableEq

/-- A response part `{ text: ... }`.  The stream path copies the raw parsed
JSON field, so `text` is a `JsonValue` (a `.str` in every typed case). -/
structure RespPart where
  text : JsonValue
deriving Repr

/-- Candidate content `{ parts, role }`. -/
structure RespContent where
  parts : List RespPart
  role : String
deriving Repr

/-- One candidate. -/
structure Candidate where
  content : RespContent
  finishReason : Option FinishReason
  index : Nat
deriving Repr

/-- Usage counters `usageMetadata` of a buffered response. -/
structure UsageMetadata where
  promptTokenCount : Nat
  candidatesTokenCount : Nat
  totalTokenCount : Nat
deriving Repr, DecidableEq

/-- Prompt feedback — the adapter always attaches `{ safetyRatings: [] }`. -/
structure PromptFeedback where
  safetyRatings : List Unit
deriving Repr

/-- Response record `GenerateContentResponse` as constructed by the adapter (the
getter-backed `text`/`data`/… properties are set to `undefined` in the
source and carry no information). -/
structure GenerateContentResponse where
  candidates : List Candidate
  promptFeedback : PromptFeedback
  usageMetadata : Option UsageMetadata
deriving Repr

/-- Token-count response record. -/
structure CountTokensResponse where
  totalTokens : Nat
deriving Repr, DecidableEq

/-- Embedding response record — never constructed by this adapter. -/
structure EmbedContentResponse where
deriving Repr

/-- A buffered Ollama `/api/generate` response object
`{ response?: string, done?: boolean, prompt_eval_count?, eval_count? }`
(§3 provider shape; these are exactly the fields the code reads). -/
structure OllamaResponseData where
  response : Option String
  done : Option Bool
  prompt_eval_count : Option Nat
  eval_count : Option Nat
deriving Repr

/-- JS truthiness of a boolean-or-`undefined` property. -/
def jsTruthyBool : Option Bool → Bool
  | some b => b
  | none => false

/-! ## Request-side conversion (prompt construction, text extraction) -/

/-- Lines 194–198 / 267–271: unify `ContentListUnion`: keep array elements
that are objects with a `parts` key; wrap a single such object; anything
else contributes no content entries. -/
def selectContents : ContentsUnion → List Content
  | .many xs => xs.filterMap (fun i => match i with
      | .contentItem c => some c
      | _ => none)
  | .one (.contentItem c) => [c]
  | .one _ => []

/-- The texts a single content entry contributes: skipped entirely when
`parts` is nullish, and a part contributes iff `'text' in part && part.text`
(so empty-string texts are skipped). -/
def contentTexts (c : Content) : List String :=
  match c.parts with
  | none => []
  | some ps => ps.filterMap (fun p => match p with
      | .text t => if t = "" then none else some t
      | .other => none)

/-- All contributed texts of a request, in order. -/
def textPieces (request : GenerateContentParameters) : List String :=
  (selectContents request.contents).map contentTexts |>.flatten

/-- Concatenation of a list of strings (the `prompt += …` / `text += …`
accumulation loops). -/
def joinPieces : List String → String
  | [] => ""
  | t :: ts => t ++ joinPieces ts

/-- Lines 189–212, `convertToOllamaPrompt`: each contributing text followed
by a newline, then `trim()`. -/
def convertToOllamaPrompt (request : GenerateContentParameters) : String :=
  jsTrim (joinPieces ((textPieces request).map (fun t => t ++ "\n")))

/-- Lines 263–284, `extractTextFromRequest`: each contributing text followed
by a space, then `trim()`. -/
def extractTextFromRequest (request : CountTokensParameters) : String :=
  jsTrim (joinPieces ((textPieces request).map (fun t => t ++ " ")))

/-- Line 52: `Math.ceil(text.length / 4)`. -/
def estimateTokens (n : Nat) : Nat :=
  (n + 3) / 4

/-- Lines 49–57, `countTokens`. -/
def countTokens (request : CountTokensParameters) : CountTokensResponse :=
  ⟨estimateTokens (utf16Len (extractTextFromRequest request))⟩

/-! ## Response-side conversion -/

/-- Lines 214–239, `convertFromOllamaResponse` (buffered). -/
def convertFromOllamaResponse (data : OllamaResponseData) : GenerateContentResponse :=
  { candidates := [{
      content := { parts := [⟨.str (jsOrStr data.response "")⟩], role := "model" },
      finishReason := some (if jsTruthyBool data.done then .STOP else .MAX_TOKENS),
      index := 0 }],
    promptFeedback := ⟨[]⟩,
    usageMetadata := some {
      promptTokenCount := jsOrNat data.prompt_eval_count 0,
      candidatesTokenCount := jsOrNat data.eval_count 0,
      totalTokenCount := jsOrNat data.prompt_eval_count 0 + jsOrNat data.eval_count 0 } }

/-- Lines 241–261, `convertFromOllamaStreamResponse`: applied to the raw
parsed JSON of one stream line; no usage metadata, and no finish reason
unless `done` is truthy. -/
def convertFromOllamaStreamResponse (data : JsonValue) : GenerateContentResponse :=
  { candidates := [{
      content := { parts := [⟨jsOrJson (objGet data "response") (.str "")⟩], role := "model" },
      finishReason := if jsTruthyOpt (objGet data "done") then some .STOP else none,
      index := 0 }],
    promptFeedback := ⟨[]⟩,
    usageMetadata := none }

/-! ## The streaming line loop -/

/-- Lines 163–174: one complete line of the stream.  Blank lines are
ignored; a line that fails `JSON.parse` is silently skipped (the empty
`catch`); a parsed object is yielded iff its `response` field is truthy. -/
def lineYield (line : String) : List GenerateContentResponse :=
  if jsTrim line = "" then []
  else
    match parseJson line with
    | none => []
    | some data =>
      if jsTruthyOpt (objGet data "response") then [convertFromOllamaStreamResponse data]
      else []

/-- All chunks yielded for a sequence of complete lines. -/
def processLines (lines : List String) : List GenerateContentResponse :=
  (lines.map lineYield).flatten

/-- Lines 152–161, one `reader.read()` step: append the decoded chunk to the
buffer, split on `'\n'`, hold the trailing fragment back (`lines.pop() || ''`),
and hand the complete lines to the loop. -/
def splitStep (acc : List String × String) (chunk : String) : List String × String :=
  let buffer := acc.2 ++ chunk
  let lines := buffer.split (fun c => c = '\n')
  (acc.1 ++ lines.dropLast, jsOrStr lines.getLast? "")

/-- The complete lines produced over a whole stream of decoded chunks; the
final buffered fragment is never processed (the loop just breaks on
end-of-stream). -/
def splitStreamChunks (chunks : List String) : List String :=
  (chunks.foldl splitStep ([], "")).1

/-! ## Error messages and transport outcomes -/

/-- Line 75 / line 120: `setTimeout(() => controller.abort(), 120000)`. -/
def generateTimeoutMs : Nat := 120000

def streamTimeoutMs : Nat := 120000

/-- Lines 107 / 182 (the string template still says "60s"). -/
def timeoutMessage (cfg : LocalModelConfig) : String :=
  "Local model endpoint timeout after 60s: " ++ cfg.endpoint ++
  "/api/generate is not responding. Make sure your local model server (" ++
  providerName cfg.provider ++ ") is running and the model \"" ++ cfg.model ++
  "\" is available."

/-- Lines 98 / 143: thrown on a non-2xx status — inside the `try`, so it is
re-caught and wrapped by `requestFailedMessage`. -/
def upstreamMessage (status : Nat) (statusText : String) : String :=
  "Ollama API error: " ++ Nat.repr status ++ " " ++ statusText

/-- Lines 110 / 185: the generic wrapper around any caught error message. -/
def requestFailedMessage (m : String) : String :=
  "Local model request failed: " ++ m

/-- Lines 37 / 46. -/
def unsupportedMessage (p : Provider) : String :=
  "Unsupported local model provider: " ++ providerName p

/-- Line 61. -/
def embeddingMessage : String :=
  "Embedding not supported with local models. Use Google embedding models."

/-- Line 148 (inside the `try`, hence wrapped when surfaced). -/
def noBodyMessage : String := "No response body from Ollama"

/-- Outcome of the buffered `fetch` + `response.json()`: aborted by the
timeout timer, a non-2xx status, any other transport/parse failure (with
the underlying error message), or a parsed payload. -/
inductive FetchOutcome where
  | abortTimeout
  | httpError (status : Nat) (statusText : String)
  | transportFailure (message : String)
  | success (data : OllamaResponseData)
deriving Repr

/-- Outcome of the streaming `fetch`: as above, plus a missing body, or a
body delivered as a sequence of decoded text chunks. -/
inductive StreamFetchOutcome where
  | abortTimeout
  | httpError (status : Nat) (statusText : String)
  | transportFailure (message : String)
  | noBody
  | body (chunks : List String)
deriving Repr

/-! ## The four interface methods (lines 31–62, 64–187) -/

/-- Lines 64–112, `generateContentOllama`, as a function of the transport
outcome.  The non-2xx throw happens inside the `try`, so its message
reaches the caller wrapped by the catch-all rethrow; only an `AbortError`
gets the timeout message. -/
def generateContentOllama (cfg : LocalModelConfig) (_request : GenerateContentParameters)
    (outcome : FetchOutcome) : Except String GenerateContentResponse :=
  match outcome with
  | .success data => .ok (convertFromOllamaResponse data)
  | .abortTimeout => .error (timeoutMessage cfg)
  | .httpError s st => .error (requestFailedMessage (upstreamMessage s st))
  | .transportFailure m => .error (requestFailedMessage m)

/-- Lines 114–187, `generateContentStreamOllama`: the yielded chunks of a
successful stream, or the classified error. -/
def generateContentStreamOllama (cfg : LocalModelConfig) (_request : GenerateContentParameters)
    (outcome : StreamFetchOutcome) : Except String (List GenerateContentResponse) :=
  match outcome with
  | .body chunks => .ok (processLines (splitStreamChunks chunks))
  | .noBody => .error (requestFailedMessage noBodyMessage)
  | .abortTimeout => .error (timeoutMessage cfg)
  | .httpError s st => .error (requestFailedMessage (upstreamMessage s st))
  | .transportFailure m => .error (requestFailedMessage m)

/-- Lines 31–38, `generateContent`: provider dispatch. -/
def generateContent (cfg : LocalModelConfig) (request : GenerateContentParameters)
    (outcome : FetchOutcome) : Except String GenerateContentResponse :=
  if cfg.provider = .ollama then generateContentOllama cfg request outcome
  else .error (unsupportedMessage cfg.provider)

/-- Lines 40–47, `generateContentStream`: provider dispatch. -/
def generateContentStream (cfg : LocalModelConfig) (request : GenerateContentParameters)
    (outcome : StreamFetchOutcome) : Except String (List GenerateContentResponse) :=
  if cfg.provider = .ollama then generateContentStreamOllama cfg request outcome
  else .error (unsupportedMessage cfg.provider)

/-- Lines 59–62, `embedContent`: unconditional failure; the request is
never inspected and no transport outcome is consumed. -/
def embedContent (_request : EmbedContentParameters) : Except String EmbedContentResponse :=
  .error embeddingMessage

/-! ## Spec-side definitions and observation functions -/

/-- Substring containment: `needle` occurs contiguously inside `hay`. -/
def containsStr (hay needle : String) : Prop :=
  ∃ pre suf : String, hay = pre ++ needle ++ suf

/-- The observable part of one candidate: role, part texts, finish reason. -/
def candObs (c : Candidate) : String × List JsonValue × Option FinishReason :=
  (c.content.role, c.content.parts.map (fun p => p.text), c.finishReason)

/-- The observable part of one response: candidates plus usage counters. -/
def chunkObs (r : GenerateContentResponse) :
    List (String × List JsonValue × Option FinishReason) × Option UsageMetadata :=
  (r.candidates.map candObs, r.usageMetadata)

/-- All text-part strings of a content entry, empty ones included. -/
def contentAllTexts (c : Content) : List String :=
  match c.parts with
  | none => []
  | some ps => ps.filterMap (fun p => match p with
      | .text t => some t
      | .other => none)

/-- All text-part strings of a request, in order, empty ones included
(the spec's "all text parts across all content entries"). -/
def allTextParts (request : GenerateContentParameters) : List String :=
  (selectContents request.contents).map contentAllTexts |>.flatten

/-- Written from the spec's words (§3 invariant, §8): the prompt as the
concatenation of **all** text parts, each followed by one newline, then
trimmed.  Compared against `convertToOllamaPrompt` for C3. -/
def specPromptAllParts (request : GenerateContentParameters) : String :=
  jsTrim (joinPieces ((allTextParts request).map (fun t => t ++ "\n")))

/-- Join a list of strings with a separator between consecutive elements
(the spec's "joined by single spaces"). -/
def joinSep (sep : String) : List String → String
  | [] => ""
  | [t] => t
  | t :: ts => t ++ sep ++ joinSep sep ts

/-- Written from the spec's words (§4.1 countTokens): **all** text parts
joined by single spaces, then trimmed.  Compared against
`extractTextFromRequest` for C4. -/
def specTokenTextAllParts (request : CountTokensParameters) : String :=
  jsTrim (joinSep " " (allTextParts request))

/-- Does the parsed `done` field literally equal JSON `true`
(the claims' "done is true")? -/
def doneIsTrue (v : JsonValue) : Bool :=
  match objGet v "done" with
  | some (.bool true) => true
  | _ => false

/-- A stream line fits the claims' domain: non-blank, and if it parses, its
`response` field (if any) is a string and its `done` field (if any) is a
boolean — the §3 provider shape. -/
def lineWellFormed (l : String) : Bool :=
  (!(jsTrim l == "")) &&
  (match parseJson l with
   | none => true
   | some v =>
     (match objGet v "response" with
      | none => true
      | some (.str _) => true
      | some _ => false) &&
     (match objGet v "done" with
      | none => true
      | some (.bool _) => true
      | some _ => false))

/-- Written from the spec's words (§4.1 streaming): the observable chunk a
line is promised to produce — one candidate, role "model", text equal to
the non-empty `response` string, `STOP` iff `done` is true, no usage
counters; `none` when the line parses to nothing yieldable.  Compared
against the stream loop for C2. -/
def specLineObs (l : String) :
    Option (List (String × List JsonValue × Option FinishReason) × Option UsageMetadata) :=
  match parseJson l with
  | none => none
  | some v =>
    match objGet v "response" with
    | some (.str s) =>
      if s = "" then none
      else some ([("model", [JsonValue.str s],
                   if doneIsTrue v then some FinishReason.STOP else none)], none)
    | _ => none

/-- The shape invariant of C10: exactly one candidate, role "model", index
0, exactly one (text) part, and empty `safetyRatings`. -/
def respShapeOk (r : GenerateContentResponse) : Prop :=
  r.candidates.map (fun c => (c.content.role, c.content.parts.length, c.index)) = [("model", 1, 0)]
  ∧ r.promptFeedback.safetyRatings = []

/-! ## Helper lemmas -/

theorem partTexts_eq_filter (ps : List Part) :
    ps.filterMap (fun p => match p with
      | .text t => if t = "" then none else some t
      | .other => none)
    = (ps.filterMap (fun p => match p with
        | .text t => some t
        | .other => none)).filter (fun t => t != "") := by
  induction ps with
  | nil => rfl
  | cons p ps ih =>
    cases p with
    | other => simpa [List.filterMap_cons] using ih
    | text t =>
      by_cases ht : t = "" <;>
        simp [List.filterMap_cons, List.filter_cons, ht, ih]

theorem contentTexts_eq_filter (c : Content) :
    contentTexts c = (contentAllTexts c).filter (fun t => t != "") := by
  unfold contentTexts contentAllTexts
  cases c.parts with
  | none => rfl
  | some ps => exact partTexts_eq_filter ps

theorem textPieces_eq_filter (request : GenerateContentParameters) :
    textPieces request = (allTextParts request).filter (fun t => t != "") := by
  unfold textPieces allTextParts
  rw [List.filter_flatten, List.map_map]
  congr 1
  exact List.map_congr_left (fun c _ => contentTexts_eq_filter c)

theorem jsTrimList_append_ws (l : List Char) (c : Char) (hc : isJsTrimWs c = true) :
    jsTrimList (l ++ [c]) = jsTrimList l := by
  induction l with
  | nil => simp [jsTrimList, List.dropWhile, hc]
  | cons a l ih =>
    by_cases ha : isJsTrimWs a = true
    · simpa [jsTrimList, List.dropWhile_cons, ha] using ih
    · simp [jsTrimList, List.dropWhile_cons, ha, List.reverse_append, hc]

theorem jsTrim_append_space (s : String) : jsTrim (s ++ " ") = jsTrim s := by
  unfold jsTrim
  rw [String.data_append]
  exact congrArg String.mk (jsTrimList_append_ws s.data ' ' (by decide))

theorem joinPieces_space_eq (ts : List String) :
    joinPieces (ts.map (fun t => t ++ " ")) = (if ts.isEmpty then "" else joinSep " " ts ++ " ") := by
  induction ts with
  | nil => rfl
  | cons t ts ih =>
    cases ts with
    | nil => simp [joinPieces, joinSep, String.append_empty]
    | cons u us =>
      simp only [List.map_cons, joinPieces, joinSep] at ih ⊢
      rw [ih]
      simp [String.append_assoc]

theorem extractText_eq_joinSep (request : CountTokensParameters) :
    extractTextFromRequest request = jsTrim (joinSep " " (textPieces request)) := by
  unfold extractTextFromRequest
  rw [joinPieces_space_eq]
  cases h : textPieces request with
  | nil => rfl
  | cons t ts => simp [jsTrim_append_space]

theorem processLines_cons (l : String) (ls : List String) :
    processLines (l :: ls) = lineYield l ++ processLines ls := by
  simp [processLines]

theorem jsTruthyOpt_done_eq (v : JsonValue)
    (hdone : (match objGet v "done" with
              | none => true
              | some (.bool _) => true
              | some _ => false) = true) :
    jsTruthyOpt (objGet v "done") = doneIsTrue v := by
  unfold doneIsTrue
  cases hd : objGet v "done" with
  | none => rfl
  | some u =>
    rw [hd] at hdone
    cases u with
    | bool b => cases b <;> rfl
    | null => simp at hdone
    | num m e => simp at hdone
    | str s => simp at hdone
    | arr xs => simp at hdone
    | obj fs => simp at hdone

/-- One well-formed line: the loop body's yields agree, observably, with the
chunk the spec promises for that line. -/
theorem lineYield_obs (l : String) (h : lineWellFormed l = true) :
    (lineYield l).map chunkObs = (specLineObs l).toList := by
  unfold lineWellFormed at h
  rw [Bool.and_eq_true] at h
  obtain ⟨hblank, hshape⟩ := h
  have hb : ¬ jsTrim l = "" := by simpa using hblank
  unfold lineYield specLineObs
  rw [if_neg hb]
  cases hp : parseJson l with
  | none => rfl
  | some v =>
    rw [hp] at hshape
    rw [Bool.and_eq_true] at hshape
    obtain ⟨hresp, hdone⟩ := hshape
    have hdd := jsTruthyOpt_done_eq v hdone
    cases hr : objGet v "response" with
    | none => simp [jsTruthyOpt, hr]
    | some w =>
      rw [hr] at hresp
      cases w with
      | str s =>
        by_cases hs : s = ""
        · simp [jsTruthyOpt, jsTruthy, hr, hs]
        · have htr : jsTruthyOpt (some (JsonValue.str s)) = true := by
            simp [jsTruthyOpt, jsTruthy, hs]
          simp [htr, hs, hr, convertFromOllamaStreamResponse, chunkObs, candObs, jsOrJson,
                jsTruthy, hdd]
      | null => simp at hresp
      | bool b => simp at hresp
      | num m e => simp at hresp
      | arr xs => simp at hresp
      | obj fs => simp at hresp

/-! ## Concrete example inputs used by claims -/

/-- Request with parts `["Hello", "world"]`. -/
def helloWorldRequest : GenerateContentParameters :=
  ⟨.many [.contentItem ⟨some [.text "Hello", .text "world"], some "user"⟩]⟩

/-- Request with no content entries at all. -/
def emptyRequest : GenerateContentParameters :=
  ⟨.many []⟩

/-- Request with parts `["a", "", "b"]`: the empty text part separates the
code's behaviour from the spec's "all text parts" wording. -/
def promptCexRequest : GenerateContentParameters :=
  ⟨.many [.contentItem ⟨some [.text "a", .text "", .text "b"], none⟩]⟩

/-- Request with parts `["ab", "", "b"]`: under the spec's space-joining of
all text parts the text has length 5 (two tokens); the code produces
`"ab b"` of length 4 (one token). -/
def tokenCexRequest : GenerateContentParameters :=
  ⟨.many [.contentItem ⟨some [.text "ab", .text "", .text "b"], none⟩]⟩

/-- The buffered example `{response:"hi", done:true, prompt_eval_count:3,
eval_count:2}`. -/
def bufferedExampleData : OllamaResponseData :=
  ⟨some "hi", some true, some 3, some 2⟩

/-- The streamed example lines. -/
def streamExampleLines : List String :=
  ["\x7b\"response\":\"a\",\"done\":false\x7d", "\x7b\"response\":\"b\",\"done\":true\x7d"]

/-! ## The claims -/

/-- Claim C1: for every buffered Ollama response object (§3 provider shape),
`convertFromOllamaResponse` — the success path of `generateContent` —
returns exactly one candidate with role "model" and a single text part
equal to the `response` field (empty string when absent); finishReason is
STOP when `done` is true and MAX_TOKENS otherwise; prompt/candidates token
counts are copied from `prompt_eval_count`/`eval_count` (default 0) and
`totalTokenCount` is their sum.  In particular the example
`{response:"hi", done:true, prompt_eval_count:3, eval_count:2}` gives text
"hi", STOP, and usage 3, 2, 5. -/
theorem claim_C1 (data : OllamaResponseData) :
    ((convertFromOllamaResponse data).candidates.map candObs
      = [("model", [JsonValue.str (data.response.getD "")],
          some (if data.done = some true then FinishReason.STOP else FinishReason.MAX_TOKENS))])
    ∧ (convertFromOllamaResponse data).usageMetadata
      = some ⟨data.prompt_eval_count.getD 0, data.eval_count.getD 0,
              data.prompt_eval_count.getD 0 + data.eval_count.getD 0⟩
    ∧ (convertFromOllamaResponse bufferedExampleData).candidates.map candObs
      = [("model", [JsonValue.str "hi"], some FinishReason.STOP)]
    ∧ (convertFromOllamaResponse bufferedExampleData).usageMetadata = some ⟨3, 2, 5⟩ := by
  have hstr : jsOrStr data.response "" = data.response.getD "" := by
    cases data.response with
    | none => rfl
    | some s => by_cases hs : s = "" <;> simp [jsOrStr, hs]
  have hdone : (if jsTruthyBool data.done then FinishReason.STOP else FinishReason.MAX_TOKENS)
      = (if data.done = some true then FinishReason.STOP else FinishReason.MAX_TOKENS) := by
    cases data.done with
    | none => simp [jsTruthyBool]
    | some b => cases b <;> simp [jsTruthyBool]
  have hnat : ∀ x : Option Nat, jsOrNat x 0 = x.getD 0 := by
    intro x
    cases x with
    | none => rfl
    | some n => cases n <;> simp [jsOrNat]
  refine ⟨?_, ?_, rfl, rfl⟩
  · simp [convertFromOllamaResponse, candObs, hstr, hdone]
  · simp [convertFromOllamaResponse, hnat]

/-- Claim C2: over any sequence of complete non-blank stream lines that fit
the §3 provider shape, the stream loop yields, in input order, exactly one
chunk per line that parses as JSON with a non-empty `response` string; each
chunk has one candidate, role "model", text equal to that `response` field,
finishReason STOP iff `done` is true (unset otherwise), and no usage
counters. -/
theorem claim_C2 (lines : List String) (h : lines.all lineWellFormed = true) :
    (processLines lines).map chunkObs = lines.filterMap specLineObs := by
  induction lines with
  | nil => rfl
  | cons l ls ih =>
    rw [List.all_cons, Bool.and_eq_true] at h
    obtain ⟨h1, h2⟩ := h
    rw [processLines_cons, List.map_append, lineYield_obs l h1, ih h2, List.filterMap_cons]
    cases specLineObs l <;> simp

/-- Witness for C2 at the spec's two-line example: exactly two chunks with
texts "a" then "b", finish reasons unset then STOP, no usage counters. -/
theorem claim_C2_witness :
    (processLines streamExampleLines).map chunkObs
      = [([("model", [JsonValue.str "a"], (none : Option FinishReason))],
          (none : Option UsageMetadata)),
         ([("model", [JsonValue.str "b"], some FinishReason.STOP)],
          (none : Option UsageMetadata))] := by
  rw [claim_C2 streamExampleLines (by decide)]
  rfl

/-- Claim C3 counterexample: for the request with parts `["a", "", "b"]`
the code produces "a\nb" but the spec's "concatenation of all text parts,
each followed by one newline, trimmed" gives "a\n\nb" — the code skips
text parts whose string is empty. -/
theorem claim_C3_counterexample :
    convertToOllamaPrompt promptCexRequest ≠ specPromptAllParts promptCexRequest := by
  decide

/-- Claim C3 (amended): the prompt is the concatenation of all **non-empty**
text parts across all content entries in order, each followed by one
newline, with the whole result trimmed; a request with no text parts gives
the empty prompt, and parts `["Hello", "world"]` give "Hello\nworld". -/
theorem claim_C3 :
    (∀ request, convertToOllamaPrompt request
      = jsTrim (joinPieces
          (((allTextParts request).filter (fun t => t != "")).map (fun t => t ++ "\n"))))
    ∧ (∀ request, allTextParts request = [] → convertToOllamaPrompt request = "")
    ∧ convertToOllamaPrompt helloWorldRequest = "Hello\nworld" := by
  refine ⟨?_, ?_, by decide⟩
  · intro request
    unfold convertToOllamaPrompt
    rw [textPieces_eq_filter]
  · intro request h
    unfold convertToOllamaPrompt
    rw [textPieces_eq_filter, h]
    rfl

/-- Witness for C3: the empty request has no text parts and an empty
prompt. -/
theorem claim_C3_witness : convertToOllamaPrompt emptyRequest = "" :=
  claim_C3.2.1 emptyRequest rfl

/-- Claim C4 counterexample: for the request with parts `["ab", "", "b"]`
the code counts `ceil(4/4) = 1` token ("ab b"), but the spec's space-join
of all text parts gives "ab  b" of length 5, hence 2 tokens — the empty
text part is skipped by the code, not joined. -/
theorem claim_C4_counterexample :
    countTokens tokenCexRequest
      ≠ ⟨estimateTokens (utf16Len (specTokenTextAllParts tokenCexRequest))⟩ := by
  decide

/-- Claim C4 (amended): `countTokens` returns `ceil(L/4)` where `L` is the
UTF-16 length of the text obtained by joining all **non-empty** text parts
with single spaces and trimming; the estimate is monotonic, and lengths
0, 4, 5 give 0, 1, 2 tokens. -/
theorem claim_C4 :
    (∀ request, countTokens request
      = ⟨estimateTokens (utf16Len
          (jsTrim (joinSep " " ((allTextParts request).filter (fun t => t != "")))))⟩)
    ∧ (∀ a b : Nat, a ≤ b → estimateTokens a ≤ estimateTokens b)
    ∧ estimateTokens 0 = 0 ∧ estimateTokens 4 = 1 ∧ estimateTokens 5 = 2 := by
  refine ⟨?_, ?_, rfl, rfl, rfl⟩
  · intro request
    unfold countTokens
    rw [extractText_eq_joinSep, textPieces_eq_filter]
  · intro a b h
    exact Nat.div_le_div_right (Nat.add_le_add_right h 3)

/-- Witness for C4: monotonicity at a concrete pair. -/
theorem claim_C4_witness : estimateTokens 3 ≤ estimateTokens 10 :=
  claim_C4.2.1 3 10 (by decide)

/-- Claim C7: a complete line that fails to parse as JSON is skipped
silently — it contributes no chunk and no error, and the lines around it
are processed exactly as if it were absent. -/
theorem claim_C7 (xs ys : List String) (l : String) (h : parseJson l = none) :
    processLines (xs ++ l :: ys) = processLines (xs ++ ys) := by
  have hl : lineYield l = [] := by
    unfold lineYield
    rw [h]
    simp
  simp [processLines, List.map_append, hl]

/-- Witness for C7: the malformed line "not json" between two good lines
changes nothing. -/
theorem claim_C7_witness :
    processLines ["\x7b\"response\":\"x\",\"done\":false\x7d", "not json",
                  "\x7b\"response\":\"y\",\"done\":true\x7d"]
      = processLines ["\x7b\"response\":\"x\",\"done\":false\x7d",
                      "\x7b\"response\":\"y\",\"done\":true\x7d"] :=
  claim_C7 ["\x7b\"response\":\"x\",\"done\":false\x7d"] ["\x7b\"response\":\"y\",\"done\":true\x7d"]
    "not json" (by rfl)

/-! ## Substring facts about the error messages -/

theorem timeout_names_endpoint (cfg : LocalModelConfig) :
    containsStr (timeoutMessage cfg) cfg.endpoint := by
  refine ⟨"Local model endpoint timeout after 60s: ",
          "/api/generate is not responding. Make sure your local model server (" ++
          (providerName cfg.provider ++
           (") is running and the model \"" ++ (cfg.model ++ "\" is available."))), ?_⟩
  simp [timeoutMessage, String.append_assoc]

theorem timeout_names_provider (cfg : LocalModelConfig) :
    containsStr (timeoutMessage cfg) (providerName cfg.provider) := by
  refine ⟨"Local model endpoint timeout after 60s: " ++
          (cfg.endpoint ++
           "/api/generate is not responding. Make sure your local model server ("),
          ") is running and the model \"" ++ (cfg.model ++ "\" is available."), ?_⟩
  simp [timeoutMessage, String.append_assoc]

theorem requestFailed_carries (m : String) :
    containsStr (requestFailedMessage m) m := by
  refine ⟨"Local model request failed: ", "", ?_⟩
  simp [requestFailedMessage, String.append_empty]

theorem upstream_carries_status (s : Nat) (st : String) :
    containsStr (requestFailedMessage (upstreamMessage s st)) (Nat.repr s) := by
  refine ⟨"Local model request failed: " ++ "Ollama API error: ", " " ++ st, ?_⟩
  unfold requestFailedMessage upstreamMessage
  simp only [← String.append_assoc]

theorem upstream_carries_reason (s : Nat) (st : String) :
    containsStr (requestFailedMessage (upstreamMessage s st)) st := by
  refine ⟨"Local model request failed: " ++ ("Ollama API error: " ++ (Nat.repr s ++ " ")), "", ?_⟩
  simp [requestFailedMessage, upstreamMessage, String.append_assoc, String.append_empty]

theorem unsupported_names_provider (p : Provider) :
    containsStr (unsupportedMessage p) (providerName p) := by
  refine ⟨"Unsupported local model provider: ", "", ?_⟩
  simp [unsupportedMessage, String.append_empty]

/-- Claim C5: both paths arm a 120-second abort timer; an abort surfaces as
an error naming the endpoint and the provider; a non-2xx status surfaces as
an error carrying the status code and reason text; any other transport
failure surfaces as an error wrapping the underlying message. -/
theorem claim_C5 :
    generateTimeoutMs = 120000 ∧ streamTimeoutMs = 120000
    ∧ (∀ cfg request,
        generateContentOllama cfg request .abortTimeout = .error (timeoutMessage cfg)
        ∧ containsStr (timeoutMessage cfg) cfg.endpoint
        ∧ containsStr (timeoutMessage cfg) (providerName cfg.provider))
    ∧ (∀ cfg request s st,
        generateContentOllama cfg request (.httpError s st)
          = .error (requestFailedMessage (upstreamMessage s st))
        ∧ containsStr (requestFailedMessage (upstreamMessage s st)) (Nat.repr s)
        ∧ containsStr (requestFailedMessage (upstreamMessage s st)) st)
    ∧ (∀ cfg request m,
        generateContentOllama cfg request (.transportFailure m)
          = .error (requestFailedMessage m)
        ∧ containsStr (requestFailedMessage m) m)
    ∧ (∀ cfg request,
        generateContentStreamOllama cfg request .abortTimeout = .error (timeoutMessage cfg))
    ∧ (∀ cfg request s st,
        generateContentStreamOllama cfg request (.httpError s st)
          = .error (requestFailedMessage (upstreamMessage s st)))
    ∧ (∀ cfg request m,
        generateContentStreamOllama cfg request (.transportFailure m)
          = .error (requestFailedMessage m)) :=
  ⟨rfl, rfl,
   fun cfg _ => ⟨rfl, timeout_names_endpoint cfg, timeout_names_provider cfg⟩,
   fun _ _ s st => ⟨rfl, upstream_carries_status s st, upstream_carries_reason s st⟩,
   fun _ _ m => ⟨rfl, requestFailed_carries m⟩,
   fun _ _ => rfl,
   fun _ _ _ _ => rfl,
   fun _ _ _ => rfl⟩

/-- Claim C6: with any configured provider other than "ollama", both entry
points fail with the unsupported-provider error naming the configured
value, and the result does not depend on the transport outcome (no network
call is consulted). -/
theorem claim_C6 (cfg : LocalModelConfig) (request : GenerateContentParameters)
    (o o2 : FetchOutcome) (so so2 : StreamFetchOutcome)
    (h : cfg.provider ≠ .ollama) :
    generateContent cfg request o = .error (unsupportedMessage cfg.provider)
    ∧ containsStr (unsupportedMessage cfg.provider) (providerName cfg.provider)
    ∧ generateContent cfg request o = generateContent cfg request o2
    ∧ generateContentStream cfg request so = .error (unsupportedMessage cfg.provider)
    ∧ generateContentStream cfg request so2 = generateContentStream cfg request so := by
  unfold generateContent generateContentStream
  rw [if_neg h, if_neg h, if_neg h, if_neg h]
  exact ⟨rfl, unsupported_names_provider cfg.provider, rfl, rfl, rfl⟩

/-- Witness for C6: a vllm-configured adapter fails the buffered call with
the unsupported-provider error. -/
theorem claim_C6_witness :
    generateContent ⟨"http://localhost:11434", "gemma3:27b", .vllm⟩ emptyRequest .abortTimeout
      = .error (unsupportedMessage .vllm) :=
  (claim_C6 ⟨"http://localhost:11434", "gemma3:27b", .vllm⟩ emptyRequest
    .abortTimeout .abortTimeout .noBody .noBody (by decide)).1

/-- Claim C8: `embedContent` fails on every input with the not-supported
message (which directs the caller to Google embedding models), and the
result is a constant — no transport outcome is even consumed. -/
theorem claim_C8 (request req2 : EmbedContentParameters) :
    embedContent request = .error embeddingMessage
    ∧ containsStr embeddingMessage "not supported"
    ∧ containsStr embeddingMessage "Use Google embedding models."
    ∧ embedContent request = embedContent req2 :=
  ⟨rfl,
   ⟨"Embedding ", " with local models. Use Google embedding models.", by decide⟩,
   ⟨"Embedding not supported with local models. ", "", by decide⟩,
   rfl⟩

/-- Claim C9: string entries in `contents` contribute nothing — only
entries that are objects with a `parts` key are consumed — so a request
whose contents is a single string yields an empty prompt and a token count
of 0, and inserting a string entry into an array changes neither the
extracted texts, nor the token count, nor the prompt. -/
theorem claim_C9 :
    (∀ s : String,
        convertToOllamaPrompt ⟨.one (.strItem s)⟩ = ""
        ∧ (countTokens ⟨.one (.strItem s)⟩).totalTokens = 0)
    ∧ (∀ (xs ys : List ContentItem) (s : String),
        textPieces ⟨.many (xs ++ ContentItem.strItem s :: ys)⟩ = textPieces ⟨.many (xs ++ ys)⟩
        ∧ countTokens ⟨.many (xs ++ ContentItem.strItem s :: ys)⟩
            = countTokens ⟨.many (xs ++ ys)⟩
        ∧ convertToOllamaPrompt ⟨.many (xs ++ ContentItem.strItem s :: ys)⟩
            = convertToOllamaPrompt ⟨.many (xs ++ ys)⟩) := by
  constructor
  · intro s
    have h0 : textPieces ⟨.one (.strItem s)⟩ = [] := rfl
    constructor
    · unfold convertToOllamaPrompt
      rw [h0]
      decide
    · unfold countTokens extractTextFromRequest
      rw [h0]
      decide
  · intro xs ys s
    have hsel : selectContents (.many (xs ++ ContentItem.strItem s :: ys))
        = selectContents (.many (xs ++ ys)) := by
      simp [selectContents, List.filterMap_append, List.filterMap_cons]
    refine ⟨?_, ?_, ?_⟩
    · simp [textPieces, hsel]
    · simp [countTokens, extractTextFromRequest, textPieces, hsel]
    · simp [convertToOllamaPrompt, textPieces, hsel]

/-- Claim C10: every buffered response and every streamed chunk has exactly
one candidate, role "model", index 0, a single (text) part, and an empty
`safetyRatings` list in `promptFeedback`. -/
theorem claim_C10 :
    (∀ data : OllamaResponseData, respShapeOk (convertFromOllamaResponse data))
    ∧ (∀ v : JsonValue, respShapeOk (convertFromOllamaStreamResponse v)) := by
  constructor
  · intro data
    exact ⟨rfl, rfl⟩
  · intro v
    exact ⟨rfl, rfl⟩

end LocalGen
